import Mathlib

/-!
Shallow embedding of pi_pact.py (BLE beacon advertiser/scanner) and proofs
about its validated parameter model, control-file lifecycle, scan loop
timing, scan-record pipeline and configuration resolution.

Python values are modelled with plain Lean types: Python int as Int,
Python float as the exact rationals the comparisons see, fallible code as
Except, dictionaries as association lists in insertion order.
-/

namespace PiPact

/-- Kinds of Python exceptions raised by pi_pact.py code paths modelled here. -/
inductive Err where
  | typeError
  | valueError
  | keyError
  | attributeError
  | radioError
  deriving DecidableEq, Repr

/-- MAX_TIMEOUT = 600 (pi_pact.py line 81). -/
def MAX_TIMEOUT : ℚ := 600

/-- MAJOR_LIMITS = [1, 65535] (line 86). -/
def MAJOR_LIMITS : Int × Int := (1, 65535)

/-- MINOR_LIMITS = [1, 65535] (line 87). -/
def MINOR_LIMITS : Int × Int := (1, 65535)

/-- TX_POWER_LIMITS = [-40, 4] (line 88). -/
def TX_POWER_LIMITS : Int × Int := (-40, 4)

/-- INTERVAL_LIMITS = [20, 10000] (line 89). -/
def INTERVAL_LIMITS : Int × Int := (20, 10000)

/-- ID_FILTERS (line 82). -/
def ID_FILTERS : List String := ["ADDRESS", "UUID", "MAJOR", "MINOR", "TX POWER"]

/-- MEASUREMENT_FILTERS (line 83). -/
def MEASUREMENT_FILTERS : List String := ["TIMESTAMP", "RSSI"]

/-- ALLOWABLE_FILTERS = ID_FILTERS + MEASUREMENT_FILTERS (line 90). -/
def ALLOWABLE_FILTERS : List String := ID_FILTERS ++ MEASUREMENT_FILTERS

/-- Advertiser.major setter (lines 213-226): ValueError outside MAJOR_LIMITS,
otherwise the value is stored. The isinstance TypeError branch is absorbed by
typing the argument as Int. -/
def major_setter (value : Int) : Except Err Int :=
  if value < MAJOR_LIMITS.1 ∨ value > MAJOR_LIMITS.2 then Except.error Err.valueError
  else Except.ok value

/-- Advertiser.minor setter (lines 233-246). -/
def minor_setter (value : Int) : Except Err Int :=
  if value < MINOR_LIMITS.1 ∨ value > MINOR_LIMITS.2 then Except.error Err.valueError
  else Except.ok value

/-- Advertiser.tx_power setter (lines 253-266). -/
def tx_power_setter (value : Int) : Except Err Int :=
  if value < TX_POWER_LIMITS.1 ∨ value > TX_POWER_LIMITS.2 then Except.error Err.valueError
  else Except.ok value

/-- Advertiser.interval setter (lines 273-286). -/
def interval_setter (value : Int) : Except Err Int :=
  if value < INTERVAL_LIMITS.1 ∨ value > INTERVAL_LIMITS.2 then Except.error Err.valueError
  else Except.ok value

/-- Scanner.revisit setter (lines 441-456): ValueError unless strictly positive. -/
def revisit_setter (value : Int) : Except Err Int :=
  if value ≤ 0 then Except.error Err.valueError
  else Except.ok value

/-- Advertiser.timeout setter (lines 165-186); Scanner.timeout setter
(lines 414-434) is textually identical. None is accepted; a number must be
strictly positive and at most MAX_TIMEOUT. -/
def timeout_setter (value : Option ℚ) : Except Err (Option ℚ) :=
  match value with
  | none => Except.ok none
  | some q =>
    if q ≤ 0 then Except.error Err.valueError
    else if q > MAX_TIMEOUT then Except.error Err.valueError
    else Except.ok (some q)

/-- One iteration of the constructor loop of Advertiser.__init__ /
Scanner.__init__ (lines 121-127 and 354-360): a key supplied in kwargs with a
truthy value is passed to its validating setter, otherwise the setter runs on
the built-in default. kw = none models the key being absent from kwargs. -/
def initKw {α β : Type} (truthy : α → Bool) (setter : α → Except Err β) (dflt : α)
    (kw : Option α) : Except Err β :=
  match kw with
  | some v => if truthy v then setter v else setter dflt
  | none => setter dflt

/-- Python truthiness of an int. -/
def intTruthy (v : Int) : Bool := v != 0

/-- Python truthiness of an optional number (None and 0 are falsy). -/
def timeoutTruthy (v : Option ℚ) : Bool :=
  match v with
  | none => false
  | some q => q != 0

/-- The integer-valued validated configuration fields of Advertiser
(major, minor, tx_power, interval) and Scanner (revisit). -/
inductive CField where
  | major
  | minor
  | txPower
  | interval
  | revisit
  deriving DecidableEq, Repr

/-- Dispatch to the setter of each field, from the source. -/
def fieldSetter : CField → Int → Except Err Int
  | .major => major_setter
  | .minor => minor_setter
  | .txPower => tx_power_setter
  | .interval => interval_setter
  | .revisit => revisit_setter

/-- Built-in defaults from DEFAULT_CONFIG (lines 26-42). -/
def fieldDefault : CField → Int
  | .major => 1
  | .minor => 1
  | .txPower => 1
  | .interval => 200
  | .revisit => 1

/-- Constructing an Advertiser/Scanner with the given keyword value for an
integer field: the constructor loop applied to that field. -/
def fieldInit (f : CField) (kw : Option Int) : Except Err Int :=
  initKw intTruthy (fieldSetter f) (fieldDefault f) kw

/-- Constructing with the given keyword value for the timeout field
(default None in both DEFAULT_CONFIG sections). -/
def timeoutInit (kw : Option (Option ℚ)) : Except Err (Option ℚ) :=
  initKw timeoutTruthy timeout_setter none kw

/-- The documented range of each integer field (docstrings lines 102-107 and
335-338): major and minor in [1, 65535], tx_power in [-40, 4], interval in
[20, 10000], revisit strictly positive. -/
def fieldInRange : CField → Int → Bool
  | .major, v => decide (1 ≤ v) && decide (v ≤ 65535)
  | .minor, v => decide (1 ≤ v) && decide (v ≤ 65535)
  | .txPower, v => decide (-40 ≤ v) && decide (v ≤ 4)
  | .interval, v => decide (20 ≤ v) && decide (v ≤ 10000)
  | .revisit, v => decide (0 < v)

/-- Observable state of the control channel during a session: the current
text content of the control file and whether the read handle opened by the
advertise/scan loop is still open. -/
structure Chan where
  content : String
  handleOpen : Bool
  deriving DecidableEq, Repr

/-- Channel state as left by the control_file setter: content "0", no handle. -/
def chan0 : Chan := { content := "0", handleOpen := false }

/-- Model of Advertiser.advertise (lines 288-328). startFails / stopFails say
whether the radio service raises in start_advertising (line 305) or
stop_advertising (line 324); ext models an external write to the control file
observed by the polling loop (lines 311-322), none meaning the loop exits by
timeout with the content still "0". A raise propagates immediately as
Except.error carrying the channel state at that moment; there is no
try/finally in the source, so the cleanup lines 326-328 run only after a
non-raising stop_advertising. -/
def advertise (startFails stopFails : Bool) (ext : Option String) (st : Chan) :
    Except (Err × Chan) Chan :=
  let st1 : Chan := { st with content := "0" }
  if startFails then Except.error (Err.radioError, st1)
  else
    let st2 : Chan := { st1 with handleOpen := true }
    let st3 : Chan :=
      match ext with
      | some s => { st2 with content := s }
      | none => st2
    if stopFails then Except.error (Err.radioError, st3)
    else Except.ok { st3 with handleOpen := false, content := "0" }

/-- The Scanner.scan cycle loop (lines 566-581): n cycles run before the stop
condition fires; cycle i calls the blocking scan of the radio service (line 571),
which raises when failAt = some i, propagating with the state unchanged. -/
def scanCycles (failAt : Option Nat) (i n : Nat) (st : Chan) :
    Except (Err × Chan) Chan :=
  match n with
  | 0 => Except.ok st
  | m + 1 =>
    if failAt = some i then Except.error (Err.radioError, st)
    else scanCycles failAt (i + 1) m st

/-- Model of the control-channel lifecycle of Scanner.scan (lines 531-591):
reset content (555-556), open the read handle (560), run the cycle loop, and
on normal loop exit only, close the handle and rewrite "0" (584-586). -/
def scanSession (failAt : Option Nat) (cycles : Nat) (st : Chan) :
    Except (Err × Chan) Chan :=
  let st1 : Chan := { st with content := "0" }
  let st2 : Chan := { st1 with handleOpen := true }
  match scanCycles failAt 0 cycles st2 with
  | Except.error e => Except.error e
  | Except.ok st3 => Except.ok { st3 with handleOpen := false, content := "0" }

/-- Timing model of the Scanner.scan loop (lines 566-581) under the idealization stated by the claim: that every cycle takes exactly revisit seconds and no external
stop arrives: starting from elapsed time t, each iteration advances the clock
by revisit and the loop exits as soon as the elapsed time strictly exceeds
the timeout (line 574). Returns the total elapsed time at exit, or none if
the fuel runs out first. -/
def scanElapsed (fuel : Nat) (timeout revisit t : ℚ) : Option ℚ :=
  match fuel with
  | 0 => none
  | m + 1 =>
    if timeout < t + revisit then some (t + revisit)
    else scanElapsed m timeout revisit (t + revisit)

/-- One row of the scan table built by Scanner.process_scans (lines 516-526):
ADDRESS, TIMESTAMP, UUID, MAJOR, MINOR, TX POWER, RSSI. The timestamp is
optional because zip_longest pads missing timestamps with None. -/
structure Record where
  address : String
  timestamp : Option Int
  uuid : String
  major : Int
  minor : Int
  txPower : Int
  rssi : Int
  deriving DecidableEq, Repr

/-- A well-typed entry of the Scanner.filters dictionary: an identity filter
(exact-match target) keyed by one of ID_FILTERS, or a measurement filter
(inclusive [low, high] range) keyed by one of MEASUREMENT_FILTERS. -/
inductive Filt where
  | address (s : String)
  | uuid (s : String)
  | major (n : Int)
  | minor (n : Int)
  | txPower (n : Int)
  | timestamp (lo hi : Int)
  | rssi (lo hi : Int)
  deriving DecidableEq, Repr

/-- Whether one record passes one filter entry, as in the body of
Scanner.filter_advertisements (lines 488-495): identity filters via
isin([value]), i.e. exact equality (line 491); measurement filters via the
query "low <= key and key <= high" (lines 494-495). A pandas comparison
against a missing (None) timestamp is false, so such rows are dropped. -/
def satisfies (r : Record) : Filt → Bool
  | .address s => r.address == s
  | .uuid s => r.uuid == s
  | .major n => r.major == n
  | .minor n => r.minor == n
  | .txPower n => r.txPower == n
  | .timestamp lo hi =>
    match r.timestamp with
    | some t => decide (lo ≤ t) && decide (t ≤ hi)
    | none => false
  | .rssi lo hi => decide (lo ≤ r.rssi) && decide (r.rssi ≤ hi)

/-- One iteration of the filter loop (lines 488-495) on an indexed table. -/
def applyFilter (t : List (Nat × Record)) (f : Filt) : List (Nat × Record) :=
  t.filter (fun p => satisfies p.2 f)

/-- reset_index(inplace=True, drop=True) (line 496): renumber rows from 0. -/
def resetIndex (t : List (Nat × Record)) : List (Nat × Record) :=
  (t.map Prod.snd).enum

/-- Scanner.filter_advertisements (lines 478-497): apply every filter entry in
dictionary order, then re-index the surviving rows contiguously from zero. -/
def filter_advertisements (filters : List Filt) (t : List (Nat × Record)) :
    List (Nat × Record) :=
  resetIndex (filters.foldl applyFilter t)

/-- Full observable state of the control file of a controller: whether the path
exists on disk, its text content, and whether the session read handle is
open. -/
structure CtrlState where
  pathExists : Bool
  content : String
  handleOpen : Bool
  deriving DecidableEq, Repr

/-- The control_file setter (lines 143-158 / 376-391): touch the path, chmod,
write "0", and clear the stored handle. -/
def ctrl_open (st : CtrlState) : CtrlState :=
  { st with pathExists := true, content := "0", handleOpen := false }

/-- One poll of the control file (lines 317-322 / 577-581): reread from
offset 0 and signal stop when the content differs from "0". -/
def ctrl_poll (st : CtrlState) : Bool :=
  st.content != "0"

/-- An external process writing s to the control file. -/
def ctrl_externalWrite (s : String) (st : CtrlState) : CtrlState :=
  { st with content := s }

/-- Orderly shutdown (lines 326-328 / 584-586): close the session handle and
rewrite "0". -/
def ctrl_cleanup (st : CtrlState) : CtrlState :=
  { st with handleOpen := false, content := "0" }

/-- The destructor __del__ (lines 132-136 / 365-369): close the handle when
one is held, then unlink the control file. -/
def ctrl_del (st : CtrlState) : CtrlState :=
  { st with handleOpen := false, pathExists := false }

/-- A YAML-derived value of a scanner filters entry, as load_config sees it:
None, a bare number, a string, or a list of numeric bounds. -/
inductive CfgVal where
  | null
  | num (n : Int)
  | str (s : String)
  | list (xs : List Int)
  deriving DecidableEq, Repr

/-- Python len(): defined for sized values (str, list); calling it on None or
a number raises TypeError. -/
def pyLen : CfgVal → Except Err Nat
  | .null => Except.error Err.typeError
  | .num _ => Except.error Err.typeError
  | .str s => Except.ok s.length
  | .list xs => Except.ok xs.length

/-- Whether one filters entry is marked for removal by load_config
(lines 637-643): unknown key, or None value, or a measurement filter whose
value has len different from 2 — where taking len of an unsized value raises. -/
def filterMalformed (key : String) (value : CfgVal) : Except Err Bool :=
  if ¬ (key ∈ ALLOWABLE_FILTERS) then Except.ok true
  else if value = CfgVal.null then Except.ok true
  else if key ∈ MEASUREMENT_FILTERS then
    match pyLen value with
    | Except.error e => Except.error e
    | Except.ok n => Except.ok (decide (n ≠ 2))
  else Except.ok false

/-- The malformed-filter removal step of load_config (lines 635-645): decide
removal for each entry in dictionary order and drop the marked entries. The
source collects the removal keys in one pass and deletes them in a second;
this is folded into one structural recursion with the same first error and
the same surviving entries. -/
def removeMalformedFilters : List (String × CfgVal) → Except Err (List (String × CfgVal))
  | [] => Except.ok []
  | kv :: rest =>
    match filterMalformed kv.1 kv.2 with
    | Except.error e => Except.error e
    | Except.ok remove =>
      match removeMalformedFilters rest with
      | Except.error e => Except.error e
      | Except.ok fs => Except.ok (if remove then fs else kv :: fs)

/-- Whether a filters entry survives the removal pass: allowable key,
non-null value and, for a measurement filter, a value of length exactly 2. -/
def keepFilter (kv : String × CfgVal) : Bool :=
  decide (kv.1 ∈ ALLOWABLE_FILTERS) && decide (kv.2 ≠ CfgVal.null) &&
    (!(decide (kv.1 ∈ MEASUREMENT_FILTERS)) ||
      (match pyLen kv.2 with
       | Except.ok n => decide (n = 2)
       | Except.error _ => false))

/-- Whether a value supports len(). -/
def sizedVal : CfgVal → Bool
  | .str _ => true
  | .list _ => true
  | _ => false

/-- A concrete filters dictionary used by the c6 witness: an unknown key, a
null value, a well-formed range and a wrong-arity range. -/
def c6wFilters : List (String × CfgVal) :=
  [("FOO", CfgVal.str "x"), ("UUID", CfgVal.null),
   ("RSSI", CfgVal.list [-80, -40]), ("TIMESTAMP", CfgVal.list [1, 2, 3])]

/-- The payload tuple of one received advertisement, as indexed 0-4 by
process_scans (lines 521-525): UUID, major, minor, TX power, RSSI. -/
structure Payload where
  uuid : String
  major : Int
  minor : Int
  txPower : Int
  rssi : Int
  deriving DecidableEq, Repr

/-- itertools.zip_longest with the default fillvalue None (line 518). -/
def zipLongest {α β : Type} : List α → List β → List (Option α × Option β)
  | [], bs => bs.map (fun b => (none, some b))
  | a :: as, [] => (some a, none) :: zipLongest as []
  | a :: as, b :: bs => (some a, some b) :: zipLongest as bs

/-- One row built by the inner loop of process_scans (lines 520-526). -/
def mkAd (address : String) (ts : Option Int) (p : Payload) : Record :=
  { address := address, timestamp := ts, uuid := p.uuid, major := p.major,
    minor := p.minor, txPower := p.txPower, rssi := p.rssi }

/-- The fixed column order of the output DataFrame (lines 528-529). -/
def SCAN_COLUMNS : List String :=
  ["ADDRESS", "TIMESTAMP", "UUID", "MAJOR", "MINOR", "TX POWER", "RSSI"]

/-- A DataFrame as process_scans returns it: its header and its rows. -/
structure Table where
  cols : List String
  rows : List Record
  deriving DecidableEq, Repr

/-- The advertisement-collection loop of process_scans (lines 517-526) over
the zip_longest stream: a cycle whose scan is the None fill value raises
AttributeError (None.items()); otherwise one row per address in the dict
of the cycle, cycles processed in order. -/
def collectAds : List (Option (List (String × Payload)) × Option Int) →
    Except Err (List Record)
  | [] => Except.ok []
  | (none, _) :: _ => Except.error Err.attributeError
  | (some scan, ts) :: rest =>
    match collectAds rest with
    | Except.error e => Except.error e
    | Except.ok rows => Except.ok (scan.map (fun ap => mkAd ap.1 ts ap.2) ++ rows)

/-- Scanner.process_scans (lines 499-529): zip the per-cycle scans with the
per-cycle timestamps via zip_longest, flatten into rows, and wrap in a
DataFrame with the fixed columns. -/
def process_scans (scans : List (List (String × Payload))) (timestamps : List Int) :
    Except Err Table :=
  match collectAds (zipLongest scans timestamps) with
  | Except.error e => Except.error e
  | Except.ok rows => Except.ok { cols := SCAN_COLUMNS, rows := rows }

/-- The timestamp sequence padded with None out to n cycles (spec-side
description of what zip_longest pairs each cycle with). -/
def padTimestamps (n : Nat) (ts : List Int) : List (Option Int) :=
  ts.map some ++ List.replicate (n - ts.length) none

/-- Rows grouped by address: between any two rows sharing an address, every
row carries that same address. -/
def groupedByAddress (rows : List Record) : Prop :=
  ∀ (i j k : Fin rows.length), i < j → j < k →
    (rows.get i).address = (rows.get k).address →
    (rows.get j).address = (rows.get i).address

/-- Payload used by the c7 and c9 concrete inputs. -/
def cPayload : Payload :=
  { uuid := "u1", major := 1, minor := 2, txPower := -59, rssi := -65 }

/-- c9 failing input: addresses AA and BB in cycle 1, AA again in cycle 2. -/
def c9Scans : List (List (String × Payload)) :=
  [[("AA", cPayload), ("BB", cPayload)], [("AA", cPayload)]]

/-- Timestamps of the two c9 cycles. -/
def c9Stamps : List Int := [1, 2]

/-- The rows process_scans actually produces on the c9 input: cycle order,
with the two AA rows separated by the BB row. -/
def c9Rows : List Record :=
  [mkAd "AA" (some 1) cPayload, mkAd "BB" (some 1) cPayload,
   mkAd "AA" (some 2) cPayload]

/-- First of a pair of optional values, the spec-side combinator for
precedence: the first value when present, otherwise the second. -/
def optFirst {α : Type} (a b : Option α) : Option α :=
  match a with
  | some x => some x
  | none => b

/-- Lookup in a Python dict modelled as an association list in insertion
order. -/
def dictLookup {α : Type} (d : List (String × α)) (k : String) : Option α :=
  (d.find? (fun kv => kv.1 == k)).map Prod.snd

/-- The shallow merge {**dflt, **loaded} of load_config (lines 623-626):
the keys of dflt in order, each taking the loaded value when present,
followed by the loaded-only keys. -/
def dictMerge {α : Type} (dflt loaded : List (String × α)) : List (String × α) :=
  dflt.map (fun kv => (kv.1, (dictLookup loaded kv.1).getD kv.2)) ++
    loaded.filter (fun kv => (dictLookup dflt kv.1).isNone)

/-- Assignment d[k] = v for a key k already present in d. -/
def dictSet {α : Type} (d : List (String × α)) (k : String) (v : α) :
    List (String × α) :=
  d.map (fun kv => if kv.1 == k then (kv.1, v) else kv)

/-- The command-line override loop of load_config (lines 628-633) on one role
section: each parsed argument whose value is not None overwrites the key when
the section already has it. ov lists exactly the non-None parsed arguments. -/
def applyOverrides {α : Type} (d : List (String × α)) (ov : List (String × α)) :
    List (String × α) :=
  ov.foldl
    (fun acc kv =>
      if (dictLookup acc kv.1).isSome then dictSet acc kv.1 kv.2 else acc) d

/-- load_config (lines 616-633) restricted to one role section: with no
configuration file the defaults are used as-is (line 618), otherwise the
loaded section is shallow-merged over the defaults (lines 623-626); then the
command-line overrides are applied (lines 628-633). -/
def load_config_section {α : Type} (dflt : List (String × α))
    (loaded : Option (List (String × α))) (ov : List (String × α)) :
    List (String × α) :=
  let merged :=
    match loaded with
    | none => dflt
    | some l => dictMerge dflt l
  applyOverrides merged ov

/-- A concrete scan table used by the c4 witness. -/
def c4wTable : List (Nat × Record) :=
  [(0, { address := "AA", timestamp := some 1, uuid := "X", major := 1,
         minor := 2, txPower := -59, rssi := -60 }),
   (1, { address := "BB", timestamp := some 1, uuid := "Y", major := 1,
         minor := 2, txPower := -59, rssi := -50 }),
   (2, { address := "AA", timestamp := some 2, uuid := "X", major := 1,
         minor := 2, txPower := -59, rssi := -90 })]

/-- The c4 witness filter map {RSSI: [-80, -40], UUID: "X"}. -/
def c4wFilters : List Filt := [Filt.rssi (-80) (-40), Filt.uuid "X"]

/-- The same filter map in the opposite iteration order. -/
def c4wFiltersRev : List Filt := [Filt.uuid "X", Filt.rssi (-80) (-40)]

end PiPact

namespace PiPact

theorem major_setter_spec (v : Int) :
    major_setter v =
      (if 1 ≤ v ∧ v ≤ 65535 then Except.ok v else Except.error Err.valueError) := by
  unfold major_setter MAJOR_LIMITS
  split_ifs <;> first | rfl | omega

theorem minor_setter_spec (v : Int) :
    minor_setter v =
      (if 1 ≤ v ∧ v ≤ 65535 then Except.ok v else Except.error Err.valueError) := by
  unfold minor_setter MINOR_LIMITS
  split_ifs <;> first | rfl | omega

theorem tx_power_setter_spec (v : Int) :
    tx_power_setter v =
      (if -40 ≤ v ∧ v ≤ 4 then Except.ok v else Except.error Err.valueError) := by
  unfold tx_power_setter TX_POWER_LIMITS
  split_ifs <;> first | rfl | omega

theorem interval_setter_spec (v : Int) :
    interval_setter v =
      (if 20 ≤ v ∧ v ≤ 10000 then Except.ok v else Except.error Err.valueError) := by
  unfold interval_setter INTERVAL_LIMITS
  split_ifs <;> first | rfl | omega

theorem revisit_setter_spec (v : Int) :
    revisit_setter v =
      (if 0 < v then Except.ok v else Except.error Err.valueError) := by
  unfold revisit_setter
  split_ifs <;> first | rfl | omega

theorem timeout_setter_spec (q : ℚ) :
    timeout_setter (some q) =
      (if 0 < q ∧ q ≤ MAX_TIMEOUT then Except.ok (some q)
       else Except.error Err.valueError) := by
  simp only [timeout_setter]
  rcases le_or_lt q 0 with h | h
  · rw [if_pos h, if_neg]
    intro hc
    linarith [hc.1]
  · rw [if_neg (not_le.mpr h)]
    rcases le_or_lt q MAX_TIMEOUT with h2 | h2
    · rw [if_neg (not_lt.mpr h2), if_pos ⟨h, h2⟩]
    · rw [if_pos h2, if_neg]
      intro hc
      linarith [hc.2]

theorem fieldSetter_spec (f : CField) (v : Int) :
    fieldSetter f v =
      (if fieldInRange f v then Except.ok v else Except.error Err.valueError) := by
  cases f <;>
    simp only [fieldSetter, fieldInRange, major_setter_spec, minor_setter_spec,
      tx_power_setter_spec, interval_setter_spec, revisit_setter_spec,
      Bool.and_eq_true, decide_eq_true_eq]

/-- C1 (amended to truthy inputs): constructing an Advertiser or Scanner with
a truthy (nonzero) value for major, minor, tx_power, interval, revisit or
timeout succeeds and stores exactly the supplied value when it lies in the
documented range of the field, and raises ValueError when it lies outside. -/
theorem c1_construction_range (f : CField) (v : Int) (q : ℚ)
    (hv : v ≠ 0) (hq : q ≠ 0) :
    fieldInit f (some v) =
      (if fieldInRange f v then Except.ok v else Except.error Err.valueError) ∧
    timeoutInit (some (some q)) =
      (if 0 < q ∧ q ≤ MAX_TIMEOUT then Except.ok (some q)
       else Except.error Err.valueError) := by
  constructor
  · have htr : intTruthy v = true := by
      simp [intTruthy, hv]
    simp only [fieldInit, initKw, htr, if_true, fieldSetter_spec]
  · have htr : timeoutTruthy (some q) = true := by
      simp [timeoutTruthy, hq]
    simp only [timeoutInit, initKw, htr, if_true, timeout_setter_spec]

/-- Witness for c1_construction_range at major = 2 and timeout = 700:
the in-range value is stored verbatim and the out-of-range timeout raises. -/
theorem c1_construction_range_witness :
    fieldInit CField.major (some 2) = Except.ok 2 ∧
    timeoutInit (some (some 700)) = Except.error Err.valueError := by
  have h := c1_construction_range CField.major 2 700 (by norm_num) (by norm_num)
  constructor
  · rw [h.1]
    norm_num [fieldInRange]
  · rw [h.2]
    norm_num [MAX_TIMEOUT]

/-- C1 counterexample: major = 0 lies outside the documented range [1, 65535],
yet constructing an Advertiser with major = 0 raises nothing: the falsy value
is silently replaced by the default 1 (so the stored value also differs from
the input). -/
theorem c1_counterexample :
    fieldInit CField.major (some 0) = Except.ok 1 ∧
    fieldInRange CField.major 0 = false := by
  constructor
  · rfl
  · rfl

/-- C10: a falsy keyword value (0 for the integer fields, None or 0 for
timeout) makes the constructor substitute the built-in default without
running the validating setter on the supplied value: out-of-range falsy
values such as major = 0 raise no error, and the in-range falsy value
tx_power = 0 is not the stored value. -/
theorem c10_falsy_kwargs_use_defaults :
    (∀ f : CField,
      fieldInit f (some 0) = fieldInit f none ∧
      fieldInit f (some 0) = Except.ok (fieldDefault f)) ∧
    timeoutInit (some none) = Except.ok none ∧
    timeoutInit (some (some 0)) = Except.ok none ∧
    fieldInit CField.txPower (some 0) ≠ Except.ok 0 := by
  refine ⟨fun f => ?_, rfl, rfl, ?_⟩
  · cases f <;> exact ⟨rfl, rfl⟩
  · intro h
    have h2 : (1 : Int) = 0 := by
      injection h
    omega

theorem scanCycles_no_fault (n : Nat) : ∀ (i : Nat) (st : Chan),
    scanCycles none i n st = Except.ok st := by
  induction n with
  | zero =>
    intro i st
    rfl
  | succ m ih =>
    intro i st
    simp only [scanCycles, reduceCtorEq, if_false]
    exact ih (i + 1) st

theorem scanCycles_fault (n : Nat) : ∀ (i j : Nat) (st : Chan), j ≤ i → i < j + n →
    scanCycles (some i) j n st = Except.error (Err.radioError, st) := by
  induction n with
  | zero =>
    intro i j st h1 h2
    omega
  | succ m ih =>
    intro i j st h1 h2
    by_cases hij : i = j
    · simp [scanCycles, hij]
    · have hj : j + 1 ≤ i := by
        omega
      simp only [scanCycles]
      rw [if_neg, ih i (j + 1) st hj (by omega)]
      simp
      omega

/-- C2 counterexample: an advertise run in which stop_advertising raises after
an external stop request propagates the radio error with the control-file
handle still open and the content still "1" — neither half of the STOPPING
cleanup (close handle, reset content to "0") has executed. -/
theorem c2_counterexample :
    advertise false true (some "1") chan0 =
      Except.error (Err.radioError, { content := "1", handleOpen := true }) := by
  rfl

/-- C2 (amended): the STOPPING cleanup runs only on the normal exit path.
When the radio service raises after the session has started (stop_advertising
for the advertiser, the blocking scan of any cycle for the scanner), the error
propagates with the control-file handle still open; when no radio call
raises, the run ends with the handle closed and the content reset to "0". -/
theorem c2_cleanup_only_on_normal_exit (ext : Option String) (i n : Nat)
    (st : Chan) (hin : i < n) :
    (∃ stE, advertise false true ext st = Except.error (Err.radioError, stE) ∧
      stE.handleOpen = true) ∧
    advertise false false ext st = Except.ok { content := "0", handleOpen := false } ∧
    (∃ stE, scanSession (some i) n st = Except.error (Err.radioError, stE) ∧
      stE.handleOpen = true) ∧
    scanSession none n st = Except.ok { content := "0", handleOpen := false } := by
  refine ⟨?_, ?_, ?_, ?_⟩
  · cases ext with
    | none => exact ⟨{ content := "0", handleOpen := true }, rfl, rfl⟩
    | some s => exact ⟨{ content := s, handleOpen := true }, rfl, rfl⟩
  · cases ext <;> rfl
  · refine ⟨{ content := "0", handleOpen := true }, ?_, rfl⟩
    simp only [scanSession]
    rw [scanCycles_fault n i 0 _ (Nat.zero_le i) (by omega)]
  · simp only [scanSession]
    rw [scanCycles_no_fault n 0]

/-- Witness for c2_cleanup_only_on_normal_exit: one cycle, fault at cycle 0,
external stop content "1". -/
theorem c2_cleanup_only_on_normal_exit_witness :
    (∃ stE, advertise false true (some "1") chan0 =
        Except.error (Err.radioError, stE) ∧ stE.handleOpen = true) ∧
    advertise false false (some "1") chan0 =
      Except.ok { content := "0", handleOpen := false } ∧
    (∃ stE, scanSession (some 0) 1 chan0 = Except.error (Err.radioError, stE) ∧
      stE.handleOpen = true) ∧
    scanSession none 1 chan0 = Except.ok { content := "0", handleOpen := false } :=
  c2_cleanup_only_on_normal_exit (some "1") 0 1 chan0 (by omega)

theorem scanElapsed_bounds (T r : ℚ) : ∀ (fuel : Nat) (t : ℚ),
    t ≤ T → T - t < fuel * r →
    ∃ e, scanElapsed fuel T r t = some e ∧ T < e ∧ e ≤ T + r := by
  intro fuel
  induction fuel with
  | zero =>
    intro t ht hf
    exfalso
    push_cast at hf
    linarith
  | succ m ih =>
    intro t ht hf
    by_cases h : T < t + r
    · refine ⟨t + r, ?_, h, by linarith⟩
      simp [scanElapsed, h]
    · push_neg at h
      have hf2 : T - (t + r) < m * r := by
        push_cast at hf ⊢
        linarith
      obtain ⟨e, he, he1, he2⟩ := ih (t + r) h hf2
      refine ⟨e, ?_, he1, he2⟩
      simpa [scanElapsed, not_lt.mpr h] using he

/-- C3 (amended): under the exact-cycle model, a scanner run with timeout
T > 0 and no external stop terminates (any fuel beyond T / revisit cycles
suffices), and its total elapsed time e satisfies T ≤ e and e ≤ T + revisit.
The upper bound is attained (not strict) exactly when revisit divides T. -/
theorem c3_scan_duration (T r : ℚ) (fuel : Nat) (hT : 0 < T) (_hr : 0 < r)
    (hfuel : T < fuel * r) :
    ∃ e, scanElapsed fuel T r 0 = some e ∧ T ≤ e ∧ e ≤ T + r := by
  obtain ⟨e, he, he1, he2⟩ :=
    scanElapsed_bounds T r fuel 0 (le_of_lt hT) (by simpa using hfuel)
  exact ⟨e, he, le_of_lt he1, he2⟩

/-- Witness for c3_scan_duration at T = 1, revisit = 1, fuel = 2. -/
theorem c3_scan_duration_witness :
    ∃ e, scanElapsed 2 1 1 0 = some e ∧ (1 : ℚ) ≤ e ∧ e ≤ 1 + 1 :=
  c3_scan_duration 1 1 2 (by norm_num) (by norm_num) (by norm_num)

/-- C3 counterexample: with timeout T = 1 and revisit = 1 the loop exits after
its second cycle with elapsed time 2 = T + revisit, so the claimed strict
bound (elapsed < T + revisit) is violated. -/
theorem c3_counterexample :
    scanElapsed 2 1 1 0 = some 2 ∧ ¬ ((2 : ℚ) < 1 + 1) := by
  constructor
  · norm_num [scanElapsed]
  · norm_num

theorem foldl_applyFilter (fs : List Filt) : ∀ (t : List (Nat × Record)),
    fs.foldl applyFilter t = t.filter (fun p => fs.all (fun f => satisfies p.2 f)) := by
  induction fs with
  | nil =>
    intro t
    simp [List.all_nil, List.filter_true]
  | cons f fs ih =>
    intro t
    simp only [List.foldl_cons]
    rw [ih]
    simp only [applyFilter, List.filter_filter]
    apply List.filter_congr
    intro p _
    simp [List.all_cons, Bool.and_comm]

theorem map_snd_filter (g : Record → Bool) : ∀ (t : List (Nat × Record)),
    (t.filter (fun p => g p.2)).map Prod.snd = (t.map Prod.snd).filter g := by
  intro t
  induction t with
  | nil => rfl
  | cons kv t ih =>
    simp only [List.filter_cons, List.map_cons]
    by_cases h : g kv.2
    · simp [h, ih]
    · simp [h, ih]

theorem perm_all_eq {α : Type} {l1 l2 : List α} (h : l1.Perm l2) (p : α → Bool) :
    l1.all p = l2.all p := by
  induction h with
  | nil => rfl
  | cons x _ ih => simp [List.all_cons, ih]
  | swap x y l =>
    simp only [List.all_cons]
    rw [← Bool.and_assoc, Bool.and_comm (p y) (p x), Bool.and_assoc]
  | trans _ _ ih1 ih2 => exact ih1.trans ih2

/-- C4: filter_advertisements keeps exactly the records that pass every
filter entry — identity filters by exact equality, measurement filters by
the inclusive range — re-indexes the survivors contiguously from zero, and
the result is unchanged under any permutation of the filter map (AND
semantics). -/
theorem c4_filter_semantics (fs fs2 : List Filt) (t : List (Nat × Record))
    (hperm : fs.Perm fs2) :
    filter_advertisements fs t =
      ((t.map Prod.snd).filter (fun r => fs.all (fun f => satisfies r f))).enum ∧
    filter_advertisements fs t = filter_advertisements fs2 t := by
  have key : ∀ (gs : List Filt), filter_advertisements gs t =
      ((t.map Prod.snd).filter (fun r => gs.all (fun f => satisfies r f))).enum := by
    intro gs
    unfold filter_advertisements resetIndex
    rw [foldl_applyFilter]
    congr 1
    exact map_snd_filter (fun r => gs.all (fun f => satisfies r f)) t
  refine ⟨key fs, ?_⟩
  rw [key fs, key fs2]
  have hall : ∀ r, fs.all (fun f => satisfies r f) = fs2.all (fun f => satisfies r f) :=
    fun r => perm_all_eq hperm _
  congr 1
  exact List.filter_congr (fun r _ => hall r)

/-- Witness for c4_filter_semantics: the table c4wTable under
{RSSI: [-80, -40], UUID: "X"} in both iteration orders — only the first row
survives and it is re-indexed to 0. -/
theorem c4_filter_semantics_witness :
    filter_advertisements c4wFilters c4wTable =
      ((c4wTable.map Prod.snd).filter
        (fun r => c4wFilters.all (fun f => satisfies r f))).enum ∧
    filter_advertisements c4wFilters c4wTable =
      filter_advertisements c4wFiltersRev c4wTable :=
  c4_filter_semantics c4wFilters c4wFiltersRev c4wTable (by decide)

/-- C5: immediately after the control file is created/reset by the
control_file setter its content is "0", the path exists and a poll returns
false; after an external write of any content other than "0" the very next
poll returns true; orderly shutdown rewrites "0"; and the destructor removes
the path. -/
theorem c5_control_lifecycle (st st2 st3 : CtrlState) (s : String)
    (hs : s ≠ "0") :
    (ctrl_open st).pathExists = true ∧
    (ctrl_open st).content = "0" ∧
    ctrl_poll (ctrl_open st) = false ∧
    ctrl_poll (ctrl_externalWrite s (ctrl_open st)) = true ∧
    (ctrl_cleanup st2).content = "0" ∧
    (ctrl_del st3).pathExists = false := by
  refine ⟨rfl, rfl, rfl, ?_, rfl, rfl⟩
  simp [ctrl_poll, ctrl_externalWrite, ctrl_open, hs]

theorem filterMalformed_ok (key : String) (value : CfgVal)
    (h : key ∈ MEASUREMENT_FILTERS → value ≠ CfgVal.null → sizedVal value = true) :
    filterMalformed key value = Except.ok (!keepFilter (key, value)) := by
  unfold filterMalformed keepFilter
  by_cases h1 : key ∈ ALLOWABLE_FILTERS
  · by_cases h2 : value = CfgVal.null
    · subst h2
      simp [h1]
    · by_cases h3 : key ∈ MEASUREMENT_FILTERS
      · have hs := h h3 h2
        cases value with
        | null => exact absurd rfl h2
        | num n => simp [sizedVal] at hs
        | str s => simp [h1, h2, h3, pyLen]
        | list xs => simp [h1, h2, h3, pyLen]
      · simp [h1, h2, h3]
  · simp [h1]

theorem removeMalformed_eq_filter (filters : List (String × CfgVal))
    (h : ∀ kv ∈ filters, kv.1 ∈ MEASUREMENT_FILTERS → kv.2 ≠ CfgVal.null →
      sizedVal kv.2 = true) :
    removeMalformedFilters filters = Except.ok (filters.filter keepFilter) := by
  induction filters with
  | nil => rfl
  | cons kv rest ih =>
    have hkv := h kv (List.mem_cons_self kv rest)
    have hrest := ih (fun p hp => h p (List.mem_cons_of_mem kv hp))
    rw [removeMalformedFilters, filterMalformed_ok kv.1 kv.2 hkv, hrest]
    cases hk : keepFilter kv <;> simp [List.filter_cons, hk]

/-- C6 counterexample: the filters entry {RSSI: 5} — a measurement filter
whose value supports no len() — makes the removal pass of load_config raise
TypeError, so the run is rejected because of a bad filter entry rather than
the entry being dropped. -/
theorem c6_counterexample :
    removeMalformedFilters [("RSSI", CfgVal.num 5)] = Except.error Err.typeError := by
  rfl

/-- C6 (amended): provided every measurement-filter value supports len()
(besides None, which is dropped first), the removal pass completes without
rejecting the run, the surviving entries are exactly those with an allowable
key, a non-null value and (for measurement filters) a value of length 2 —
each malformed entry having been dropped silently, the removal loop emitting
no diagnostic; a measurement-filter value without len() instead raises a
TypeError that rejects the whole run. -/
theorem c6_filter_resolution (filters : List (String × CfgVal))
    (h : ∀ kv ∈ filters, kv.1 ∈ MEASUREMENT_FILTERS → kv.2 ≠ CfgVal.null →
      sizedVal kv.2 = true) :
    removeMalformedFilters filters = Except.ok (filters.filter keepFilter) ∧
    ∀ kv ∈ filters.filter keepFilter,
      kv.1 ∈ ALLOWABLE_FILTERS ∧ kv.2 ≠ CfgVal.null ∧
      (kv.1 ∈ MEASUREMENT_FILTERS → pyLen kv.2 = Except.ok 2) := by
  refine ⟨removeMalformed_eq_filter filters h, ?_⟩
  intro kv hkv
  rw [List.mem_filter] at hkv
  obtain ⟨hmem, hkeep⟩ := hkv
  unfold keepFilter at hkeep
  simp only [Bool.and_eq_true, Bool.or_eq_true, Bool.not_eq_true,
    decide_eq_true_eq, decide_eq_false_iff_not, bne_iff_ne, ne_eq] at hkeep
  obtain ⟨⟨hA, hN⟩, hM⟩ := hkeep
  refine ⟨hA, hN, ?_⟩
  intro hmeas
  rcases hM with hM | hM
  · simp at hM
    exact absurd hmeas hM
  · cases hp : pyLen kv.2 with
    | error e =>
      rw [hp] at hM
      simp at hM
    | ok n =>
      rw [hp] at hM
      simp at hM
      rw [hM]

/-- Witness for c6_filter_resolution on c6wFilters: the unknown key, the null
value and the wrong-arity range are dropped, the well-formed RSSI range
survives, and no error is raised. -/
theorem c6_filter_resolution_witness :
    removeMalformedFilters c6wFilters = Except.ok (c6wFilters.filter keepFilter) ∧
    ∀ kv ∈ c6wFilters.filter keepFilter,
      kv.1 ∈ ALLOWABLE_FILTERS ∧ kv.2 ≠ CfgVal.null ∧
      (kv.1 ∈ MEASUREMENT_FILTERS → pyLen kv.2 = Except.ok 2) :=
  c6_filter_resolution c6wFilters (by decide)

theorem collectAds_ok (scans : List (List (String × Payload))) :
    ∀ (ts : List Int), ts.length ≤ scans.length →
    collectAds (zipLongest scans ts) =
      Except.ok ((List.zipWith
        (fun scan ts0 => scan.map (fun ap => mkAd ap.1 ts0 ap.2))
        scans (padTimestamps scans.length ts)).flatten) := by
  induction scans with
  | nil =>
    intro ts h
    have hts : ts = [] := List.eq_nil_of_length_eq_zero (Nat.le_zero.mp h)
    subst hts
    rfl
  | cons s ss ih =>
    intro ts h
    cases ts with
    | nil =>
      simp only [zipLongest, collectAds]
      rw [ih [] (Nat.zero_le _)]
      simp [padTimestamps, List.replicate_succ]
    | cons t ts2 =>
      simp only [zipLongest, collectAds]
      rw [ih ts2 (by simpa using h)]
      simp [padTimestamps, Nat.succ_sub_succ]

/-- C7 counterexample: when the scans sequence is shorter than the timestamps
sequence, zip_longest pads the missing scan with None and scan.items() raises
AttributeError — process_scans aborts instead of returning a table. -/
theorem c7_counterexample :
    process_scans [] [0] = Except.error Err.attributeError := by
  rfl

/-- C7 (amended): whenever the timestamps sequence is no longer than the
scans sequence, process_scans returns a table whose header is the fixed
column order and whose rows are one record per (address, cycle) pair, cycles
in order, each cycle paired with its timestamp or with None when the
timestamp is missing; empty input yields the empty table with the full
header. When the scans sequence is the shorter one, the call raises
AttributeError instead. -/
theorem c7_process_scans_total (scans : List (List (String × Payload)))
    (ts : List Int) (h : ts.length ≤ scans.length) :
    process_scans scans ts =
      Except.ok (Table.mk SCAN_COLUMNS
        ((List.zipWith
          (fun scan ts0 => scan.map (fun ap => mkAd ap.1 ts0 ap.2))
          scans (padTimestamps scans.length ts)).flatten)) ∧
    process_scans [] [] = Except.ok (Table.mk SCAN_COLUMNS []) := by
  constructor
  · simp only [process_scans]
    rw [collectAds_ok scans ts h]
  · rfl

/-- Witness for c7_process_scans_total: two cycles, one timestamp — the
row of the second cycle carries timestamp None. -/
theorem c7_process_scans_total_witness :
    process_scans [[("AA", cPayload)], [("BB", cPayload)]] [7] =
      Except.ok (Table.mk SCAN_COLUMNS
        ((List.zipWith
          (fun scan ts0 => scan.map (fun ap => mkAd ap.1 ts0 ap.2))
          [[("AA", cPayload)], [("BB", cPayload)]]
          (padTimestamps 2 [7])).flatten)) ∧
    process_scans [] [] = Except.ok (Table.mk SCAN_COLUMNS []) :=
  c7_process_scans_total [[("AA", cPayload)], [("BB", cPayload)]] [7]
    (by norm_num)

/-- C9: on the c9 input the scan pipeline emits rows in cycle order — the two
AA rows are separated by the BB row — so the produced table is not grouped by
address (the code contradicts its own docstring, lines 511-514); the filter
step with an empty filter map preserves that order. -/
theorem c9_rows_not_grouped :
    process_scans c9Scans c9Stamps =
      Except.ok { cols := SCAN_COLUMNS, rows := c9Rows } ∧
    (filter_advertisements [] c9Rows.enum).map Prod.snd = c9Rows ∧
    ¬ groupedByAddress c9Rows := by
  refine ⟨rfl, rfl, ?_⟩
  intro hg
  have h01 : (⟨0, by norm_num [c9Rows]⟩ : Fin c9Rows.length) < ⟨1, by norm_num [c9Rows]⟩ := by
    simp [Fin.lt_def]
  have h12 : (⟨1, by norm_num [c9Rows]⟩ : Fin c9Rows.length) < ⟨2, by norm_num [c9Rows]⟩ := by
    simp [Fin.lt_def]
  have hac := hg ⟨0, by norm_num [c9Rows]⟩ ⟨1, by norm_num [c9Rows]⟩
    ⟨2, by norm_num [c9Rows]⟩ h01 h12 rfl
  simp [c9Rows, mkAd, List.get] at hac

theorem dictLookup_cons {α : Type} (kv : String × α) (d : List (String × α))
    (k : String) :
    dictLookup (kv :: d) k = if kv.1 == k then some kv.2 else dictLookup d k := by
  by_cases h : kv.1 == k <;> simp [dictLookup, List.find?_cons, h]

theorem dictLookup_append_left {α : Type} (d1 d2 : List (String × α)) (k : String)
    (h : (dictLookup d1 k).isSome) :
    dictLookup (d1 ++ d2) k = dictLookup d1 k := by
  induction d1 with
  | nil => simp [dictLookup] at h
  | cons kv d ih =>
    rw [List.cons_append, dictLookup_cons, dictLookup_cons]
    by_cases hk : kv.1 == k
    · rw [if_pos hk, if_pos hk]
    · rw [if_neg hk, if_neg hk]
      rw [dictLookup_cons, if_neg hk] at h
      exact ih h

theorem dictLookup_map_merge {α : Type} (loaded : List (String × α)) :
    ∀ (dflt : List (String × α)) (k : String), (dictLookup dflt k).isSome →
    dictLookup (dflt.map (fun kv => (kv.1, (dictLookup loaded kv.1).getD kv.2))) k =
      optFirst (dictLookup loaded k) (dictLookup dflt k) := by
  intro dflt
  induction dflt with
  | nil =>
    intro k h
    simp [dictLookup] at h
  | cons kv d ih =>
    intro k h
    simp only [List.map_cons]
    rw [dictLookup_cons, dictLookup_cons]
    by_cases hk : kv.1 == k
    · have hk2 : kv.1 = k := eq_of_beq hk
      rw [if_pos hk, if_pos hk]
      subst hk2
      cases hcl : dictLookup loaded kv.1 <;> simp [optFirst, hcl]
    · rw [if_neg hk, if_neg hk]
      rw [dictLookup_cons, if_neg hk] at h
      exact ih k h

theorem dictLookup_dictMerge {α : Type} (dflt loaded : List (String × α))
    (k : String) (h : (dictLookup dflt k).isSome) :
    dictLookup (dictMerge dflt loaded) k =
      optFirst (dictLookup loaded k) (dictLookup dflt k) := by
  unfold dictMerge
  have hm := dictLookup_map_merge loaded dflt k h
  have hs : (dictLookup
      (dflt.map (fun kv => (kv.1, (dictLookup loaded kv.1).getD kv.2))) k).isSome := by
    rw [hm]
    cases hcl : dictLookup loaded k
    · simpa [optFirst] using h
    · simp [optFirst]
  rw [dictLookup_append_left _ _ k hs, hm]

theorem dictSet_cons {α : Type} (kv : String × α) (d : List (String × α))
    (j : String) (v : α) :
    dictSet (kv :: d) j v = (if kv.1 == j then (kv.1, v) else kv) :: dictSet d j v := by
  rfl

theorem dictLookup_dictSet_self {α : Type} (d : List (String × α)) (k : String)
    (v : α) (h : (dictLookup d k).isSome) :
    dictLookup (dictSet d k v) k = some v := by
  induction d with
  | nil => simp [dictLookup] at h
  | cons kv d ih =>
    rw [dictSet_cons]
    by_cases hk : kv.1 == k
    · rw [if_pos hk, dictLookup_cons, if_pos hk]
    · rw [if_neg hk, dictLookup_cons, if_neg hk]
      rw [dictLookup_cons, if_neg hk] at h
      exact ih h

theorem dictLookup_dictSet_other {α : Type} (d : List (String × α))
    (j k : String) (v : α) (hjk : j ≠ k) :
    dictLookup (dictSet d j v) k = dictLookup d k := by
  induction d with
  | nil => rfl
  | cons kv d ih =>
    rw [dictSet_cons]
    by_cases hj : kv.1 == j
    · have hj2 : kv.1 = j := eq_of_beq hj
      have hk : ¬ (kv.1 == k) = true := by
        simp [hj2, hjk]
      rw [if_pos hj, dictLookup_cons, dictLookup_cons, if_neg hk, if_neg hk]
      exact ih
    · rw [if_neg hj, dictLookup_cons, dictLookup_cons]
      by_cases hk : kv.1 == k
      · rw [if_pos hk, if_pos hk]
      · rw [if_neg hk, if_neg hk]
        exact ih

theorem dictLookup_none_of_not_mem {α : Type} (d : List (String × α)) (k : String)
    (h : k ∉ d.map Prod.fst) :
    dictLookup d k = none := by
  induction d with
  | nil => rfl
  | cons kv d ih =>
    rw [dictLookup_cons]
    simp only [List.map_cons, List.mem_cons, not_or] at h
    have hk : ¬ (kv.1 == k) = true := by
      intro hb
      exact h.1 (eq_of_beq hb).symm
    rw [if_neg hk]
    exact ih h.2

theorem applyOverrides_cons {α : Type} (d : List (String × α)) (kv : String × α)
    (ov : List (String × α)) :
    applyOverrides d (kv :: ov) =
      applyOverrides
        (if (dictLookup d kv.1).isSome then dictSet d kv.1 kv.2 else d) ov := by
  rfl

theorem applyOverrides_lookup {α : Type} (ov : List (String × α)) :
    ∀ (d : List (String × α)) (k : String), (dictLookup d k).isSome →
    (ov.map Prod.fst).Nodup →
    dictLookup (applyOverrides d ov) k = optFirst (dictLookup ov k) (dictLookup d k) := by
  induction ov with
  | nil =>
    intro d k _ _
    simp [applyOverrides, optFirst, dictLookup]
  | cons kv ov ih =>
    intro d k h hnd
    simp only [List.map_cons, List.nodup_cons] at hnd
    rw [applyOverrides_cons, dictLookup_cons]
    by_cases hk : kv.1 = k
    · subst hk
      have hbk : (kv.1 == kv.1) = true := by simp
      have hrest : dictLookup ov kv.1 = none :=
        dictLookup_none_of_not_mem ov kv.1 hnd.1
      rw [if_pos h, if_pos hbk]
      have hset := dictLookup_dictSet_self d kv.1 kv.2 h
      have h2 : (dictLookup (dictSet d kv.1 kv.2) kv.1).isSome := by
        rw [hset]
        rfl
      rw [ih (dictSet d kv.1 kv.2) kv.1 h2 hnd.2, hrest, hset]
      rfl
    · have hbk : ¬ (kv.1 == k) = true := by simp [hk]
      rw [if_neg hbk]
      by_cases hd : (dictLookup d kv.1).isSome
      · rw [if_pos hd]
        have h2 : (dictLookup (dictSet d kv.1 kv.2) k).isSome := by
          rw [dictLookup_dictSet_other d kv.1 k kv.2 hk]
          exact h
        rw [ih _ k h2 hnd.2, dictLookup_dictSet_other d kv.1 k kv.2 hk]
      · rw [if_neg hd]
        exact ih d k h hnd.2

/-- C8: for every key the defaults know, load_config resolves the key with
precedence override, then loaded file value, then built-in default — the
merge of a role section is shallow and field-by-field, so a key missing from
the loaded section inherits its default instead of the whole section being
replaced; absent a configuration file the resolution is override over
default. -/
theorem c8_config_precedence {α : Type} (dflt loaded ov : List (String × α))
    (k : String) (hk : (dictLookup dflt k).isSome)
    (hov : (ov.map Prod.fst).Nodup) :
    dictLookup (load_config_section dflt (some loaded) ov) k =
      optFirst (dictLookup ov k)
        (optFirst (dictLookup loaded k) (dictLookup dflt k)) ∧
    dictLookup (load_config_section dflt none ov) k =
      optFirst (dictLookup ov k) (dictLookup dflt k) := by
  constructor
  · simp only [load_config_section]
    have hm := dictLookup_dictMerge dflt loaded k hk
    have hs : (dictLookup (dictMerge dflt loaded) k).isSome := by
      rw [hm]
      cases hcl : dictLookup loaded k
      · simpa [optFirst] using hk
      · simp [optFirst]
    rw [applyOverrides_lookup ov (dictMerge dflt loaded) k hs hov, hm]
  · simp only [load_config_section]
    exact applyOverrides_lookup ov dflt k hk hov

/-- Witness for c8_config_precedence: defaults {timeout: 0, major: 1}, loaded
file {major: 7}, override {timeout: 5}, resolved at key "major" — the loaded
value 7 wins over the default and survives the unrelated override. -/
theorem c8_config_precedence_witness :
    dictLookup (load_config_section [("timeout", (0 : Int)), ("major", 1)]
      (some [("major", 7)]) [("timeout", 5)]) "major" =
      optFirst (dictLookup [("timeout", (5 : Int))] "major")
        (optFirst (dictLookup [("major", (7 : Int))] "major")
          (dictLookup [("timeout", (0 : Int)), ("major", 1)] "major")) ∧
    dictLookup (load_config_section [("timeout", (0 : Int)), ("major", 1)]
      none [("timeout", 5)]) "major" =
      optFirst (dictLookup [("timeout", (5 : Int))] "major")
        (dictLookup [("timeout", (0 : Int)), ("major", 1)] "major") :=
  c8_config_precedence [("timeout", (0 : Int)), ("major", 1)] [("major", 7)]
    [("timeout", 5)] "major" (by rfl) (by decide)

/-- Witness for c5_control_lifecycle with the external stop content "1". -/
theorem c5_control_lifecycle_witness :
    (ctrl_open { pathExists := false, content := "", handleOpen := false }).content = "0" ∧
    ctrl_poll (ctrl_externalWrite "1"
      (ctrl_open { pathExists := false, content := "", handleOpen := false })) = true :=
  have h := c5_control_lifecycle
    { pathExists := false, content := "", handleOpen := false }
    { pathExists := true, content := "1", handleOpen := true }
    { pathExists := true, content := "0", handleOpen := false }
    "1" (by decide)
  ⟨h.2.1, h.2.2.2.1⟩

end PiPact
